import Mathlib

/-!
Formal model of the API-key proxying gateway of the 3DcharacterAdmiring
repository: the Express server in `cors-proxy/server.js` and the
Cloudflare Pages Functions variants (the Gemini and VOICEVOX function
file, and `functions/api/proxy/nijivoice/[[...path]].js`).

JavaScript values are embedded shallowly: JSON documents as the inductive
`Json`, strings as `String`, HTTP query strings and headers as
association lists.  Each route handler is a pure function from the
configuration, the inbound request, and an upstream oracle (a function
from the outbound request the gateway builds to the provider's result) to
the gateway response paired with the list of outbound calls performed.
-/

namespace Gateway

/-- JSON documents.  Numbers are restricted to integers: no value the
claims touch involves a fractional numeral. -/
inductive Json where
  | null : Json
  | bool (b : Bool) : Json
  | num (n : Int) : Json
  | str (s : String) : Json
  | arr (elems : List Json) : Json
  | obj (fields : List (String × Json)) : Json
deriving Repr

/-- Does `pat` occur as a contiguous block of `l`?  (Scan for a position
where `pat` is a prefix of the remaining list.) -/
def occursAux (pat : List Char) : List Char → Bool
  | [] => pat.isEmpty
  | c :: rest => pat.isPrefixOf (c :: rest) || occursAux pat rest

/-- Substring occurrence, JavaScript `hay.includes(needle)`. -/
def occurs (needle hay : String) : Bool :=
  occursAux needle.toList hay.toList

/-- Truthiness of an optional environment string: an unset variable and
the empty string are both falsy, exactly as in each handler's
`if (!API_KEYS.x)` guard. -/
def truthy : Option String → Bool
  | none => false
  | some s => !(s == "")

/-- The `API_KEYS` object: each field is `process.env.X_API_KEY`, where
`none` models an unset environment variable. -/
structure Config where
  gemini : Option String
  voicevox : Option String
  nijivoice : Option String
deriving Repr

/-- The raw string of a configured key (only read after a truthiness
check succeeded, so the `none` branch is unreachable in the handlers). -/
def keyVal : Option String → String
  | none => ""
  | some s => s

/-- JavaScript truthiness of a JSON value, used for the Express handler's
`model || 'gemini-2.0-flash'` defaulting. -/
def jsTruthy : Json → Bool
  | .null => false
  | .bool b => b
  | .num n => !(n == 0)
  | .str s => !(s == "")
  | .arr _ => true
  | .obj _ => true

mutual

/-- JavaScript string coercion of a JSON value, as performed by the
template-literal interpolation of the `model` value into the upstream
URL.  (Arrays join their elements with commas; the special casing of
null elements inside arrays is not modeled, as no claim reaches it.) -/
def jsToString : Json → String
  | .null => "null"
  | .bool b => if b then "true" else "false"
  | .num n => toString n
  | .str s => s
  | .arr l => jsToStringList l
  | .obj _ => "[object Object]"

/-- Comma join of array elements under string coercion. -/
def jsToStringList : List Json → String
  | [] => ""
  | [j] => jsToString j
  | j :: rest => jsToString j ++ "," ++ jsToStringList rest

end

/-- An outbound HTTP request built by a handler's `fetch` call.  Routes
that inline the credential into the URL string keep it there (`url`),
matching the source; the VOICEVOX audio route builds a `URLSearchParams`
list instead (`query`). -/
structure OutboundRequest where
  method : String
  url : String
  query : List (String × String)
  headers : List (String × String)
  body : Option Json
deriving Repr

/-- The fields of an upstream `Response` that the gateway reads.
`bodyJson` is the result of `response.json()`: `.error m` models the
parse throwing an error whose message is `m` (the message is
runtime-dependent and may embed the request URL, so it is supplied by
the oracle rather than computed). -/
structure UpstreamResponse where
  status : Nat
  statusText : String
  contentType : Option String
  contentLength : Option String
  bodyText : String
  bodyJson : Except String Json
deriving Repr

/-- Result of one `fetch`: a response, or a rejection carrying the thrown
error's message. -/
inductive UpstreamResult where
  | resp (r : UpstreamResponse)
  | netErr (msg : String)
deriving Repr

/-- `response.ok`: status in the 2xx range. -/
def respOk (r : UpstreamResponse) : Bool :=
  decide (200 ≤ r.status) && decide (r.status < 300)

/-- A gateway response body: a JSON document, piped binary bytes, a
file served from disk (static middleware / `sendFile`, the string
standing for the file's contents), or no body (the cors middleware's
pre-flight 204). -/
inductive RespBody where
  | json (j : Json)
  | bytes (data : String)
  | file (contents : String)
  | empty
deriving Repr

/-- A gateway response: status, the headers the route handler itself
sets (`res.set` / the Pages `Response` init; the implicit
`Content-Type: application/json` of `res.json` and the cors middleware's
headers are not modeled), and the body. -/
structure Response where
  status : Nat
  headers : List (String × String)
  body : RespBody
deriving Repr

/-- An inbound request: method, path (query string already split off),
parsed query parameters, and the JSON object body parsed by
`express.json()` (routes that read no body ignore the field). -/
structure Request where
  method : String
  path : String
  query : List (String × String)
  body : List (String × Json)
deriving Repr

/-- `handleApiError` from `cors-proxy/server.js`: classify a thrown
error by substring-matching its message. -/
def handleApiError (msg service : String) : Json :=
  if occurs "fetch" msg then
    .obj [("error", .str "Network connection failed"), ("service", .str service)]
  else if occurs "404" msg then
    .obj [("error", .str "API endpoint not found"), ("service", .str service)]
  else if occurs "401" msg || occurs "403" msg then
    .obj [("error", .str "Authentication failed"), ("service", .str service)]
  else if occurs "429" msg then
    .obj [("error", .str "Rate limit exceeded"), ("service", .str service)]
  else
    .obj [("error", .str "Unknown error occurred"), ("service", .str service),
          ("details", .str msg)]

/-- Body of the 404 handler: the JSON sent for unrecognized routes. -/
def notFoundResp : Response :=
  ⟨404, [], .json (.obj [("error", .str "Endpoint not found")])⟩

/-! ## Express Gemini handler -/

/-- The fixed fallback list offered when the upstream error text signals
a model-not-found condition. -/
def geminiAlternatives : List Json :=
  [.str "gemini-pro", .str "gemini-1.0-pro", .str "gemini-1.5-flash"]

/-- The structured suggestion body sent with status 400 on
model-not-found. -/
def geminiAltBody : Json :=
  .obj [("error", .str "Model not found"),
        ("suggestion", .str "Try alternative model names"),
        ("alternatives", .arr geminiAlternatives)]

/-- The model identifier the Express handler substitutes into the URL:
`const { model, ...requestBody } = req.body` followed by
`model || 'gemini-2.0-flash'`, so any falsy `model` value (absent,
empty string, 0, false, null) selects the default. -/
def expressGeminiModel (body : List (String × Json)) : String :=
  match body.lookup "model" with
  | some v => if jsTruthy v then jsToString v else "gemini-2.0-flash"
  | none => "gemini-2.0-flash"

/-- The body forwarded upstream: rest-destructuring drops the `model`
field and keeps everything else unchanged. -/
def dropModel (body : List (String × Json)) : List (String × Json) :=
  body.filter (fun p => !(p.1 == "model"))

/-- The upstream request the Express Gemini handler builds. -/
def geminiUpstreamReq (apiKey : String) (body : List (String × Json)) :
    OutboundRequest :=
  { method := "POST"
    url := "https://generativelanguage.googleapis.com/v1/models/"
      ++ expressGeminiModel body ++ ":generateContent?key=" ++ apiKey
    query := []
    headers := [("Content-Type", "application/json")]
    body := some (.obj (dropModel body)) }

/-- Express handler for `POST /api/proxy/gemini`. -/
def geminiHandler (cfg : Config) (upstream : OutboundRequest → UpstreamResult)
    (body : List (String × Json)) : Response × List OutboundRequest :=
  if !truthy cfg.gemini then
    (⟨500, [], .json (.obj [("error", .str "Gemini API key not configured")])⟩, [])
  else
    let oreq := geminiUpstreamReq (keyVal cfg.gemini) body
    match upstream oreq with
    | .netErr m => (⟨500, [], .json (handleApiError m "Gemini")⟩, [oreq])
    | .resp r =>
      if respOk r then
        match r.bodyJson with
        | .ok data => (⟨200, [], .json data⟩, [oreq])
        | .error m => (⟨500, [], .json (handleApiError m "Gemini")⟩, [oreq])
      else if occurs "not found for API version" r.bodyText then
        (⟨400, [], .json geminiAltBody⟩, [oreq])
      else
        (⟨r.status, [],
          .json (.obj [("error", .str "Gemini API request failed"),
                       ("details", .str r.bodyText)])⟩, [oreq])

/-! ## Express VOICEVOX handlers -/

/-- The upstream request of the speakers route (key inlined in the URL,
as in the source). -/
def voicevoxSpeakersReq (apiKey : String) : OutboundRequest :=
  { method := "GET"
    url := "https://deprecatedapis.tts.quest/v2/voicevox/speakers/?key=" ++ apiKey
    query := []
    headers := [("Accept", "application/json")]
    body := none }

/-- Express handler for `GET /api/proxy/voicevox/speakers`. -/
def voicevoxSpeakersHandler (cfg : Config)
    (upstream : OutboundRequest → UpstreamResult) :
    Response × List OutboundRequest :=
  if !truthy cfg.voicevox then
    (⟨500, [], .json (.obj [("error", .str "VOICEVOX API key not configured")])⟩, [])
  else
    let oreq := voicevoxSpeakersReq (keyVal cfg.voicevox)
    match upstream oreq with
    | .netErr m => (⟨500, [], .json (handleApiError m "VOICEVOX")⟩, [oreq])
    | .resp r =>
      if !respOk r then
        (⟨r.status, [],
          .json (.obj [("error", .str "VOICEVOX speakers request failed"),
                       ("status", .num (r.status : Int))])⟩, [oreq])
      else
        match r.bodyJson with
        | .ok data => (⟨200, [], .json data⟩, [oreq])
        | .error m => (⟨500, [], .json (handleApiError m "VOICEVOX")⟩, [oreq])

/-- JavaScript `String(v)` for an optional query value, as applied by the
`URLSearchParams` record constructor: an absent parameter becomes the
literal string "undefined". -/
def jsParam (v : Option String) : String :=
  match v with
  | some s => s
  | none => "undefined"

/-- `v || d` on an optional query parameter: absent and empty both select
the default. -/
def paramOr (v : Option String) (d : String) : String :=
  match v with
  | some s => if s == "" then d else s
  | none => d

/-- The `URLSearchParams` list the Express audio handler builds from the
inbound query, with the credential appended. -/
def voicevoxAudioParams (apiKey : String) (q : List (String × String)) :
    List (String × String) :=
  [("text", jsParam (q.lookup "text")),
   ("speaker", jsParam (q.lookup "speaker")),
   ("speed", paramOr (q.lookup "speed") "1.0"),
   ("pitch", paramOr (q.lookup "pitch") "0"),
   ("intonationScale", paramOr (q.lookup "intonationScale") "1.0"),
   ("key", apiKey)]

/-- The upstream request of the Express audio route. -/
def voicevoxAudioReq (apiKey : String) (q : List (String × String)) :
    OutboundRequest :=
  { method := "GET"
    url := "https://deprecatedapis.tts.quest/v2/voicevox/audio/?"
    query := voicevoxAudioParams apiKey q
    headers := [("Accept", "audio/wav,audio/*")]
    body := none }

/-- Express handler for `GET /api/proxy/voicevox/audio`.  On success the
upstream bytes are piped through with the upstream content type
(defaulting to audio/wav) and content length (express coerces an absent
header to the string "null"). -/
def voicevoxAudioHandler (cfg : Config)
    (upstream : OutboundRequest → UpstreamResult)
    (q : List (String × String)) : Response × List OutboundRequest :=
  if !truthy cfg.voicevox then
    (⟨500, [], .json (.obj [("error", .str "VOICEVOX API key not configured")])⟩, [])
  else
    let oreq := voicevoxAudioReq (keyVal cfg.voicevox) q
    match upstream oreq with
    | .netErr m => (⟨500, [], .json (handleApiError m "VOICEVOX")⟩, [oreq])
    | .resp r =>
      if !respOk r then
        (⟨r.status, [],
          .json (.obj [("error", .str "VOICEVOX audio synthesis failed"),
                       ("status", .num (r.status : Int))])⟩, [oreq])
      else
        (⟨200, [("Content-Type", r.contentType.getD "audio/wav"),
                ("Content-Length", r.contentLength.getD "null")],
          .bytes r.bodyText⟩, [oreq])

/-! ## Express Nijivoice handlers -/

/-- The upstream request of the voice-actors route (header-based auth). -/
def nijivoiceActorsReq (apiKey : String) : OutboundRequest :=
  { method := "GET"
    url := "https://api.nijivoice.com/api/platform/v1/voice-actors"
    query := []
    headers := [("Accept", "application/json"), ("x-api-key", apiKey)]
    body := none }

/-- Express handler for `GET /api/proxy/nijivoice/voice-actors`. -/
def nijivoiceActorsHandler (cfg : Config)
    (upstream : OutboundRequest → UpstreamResult) :
    Response × List OutboundRequest :=
  if !truthy cfg.nijivoice then
    (⟨500, [], .json (.obj [("error", .str "Nijivoice API key not configured")])⟩, [])
  else
    let oreq := nijivoiceActorsReq (keyVal cfg.nijivoice)
    match upstream oreq with
    | .netErr m => (⟨500, [], .json (handleApiError m "Nijivoice")⟩, [oreq])
    | .resp r =>
      if !respOk r then
        (⟨r.status, [],
          .json (.obj [("error", .str "Nijivoice voice actors request failed"),
                       ("status", .num (r.status : Int))])⟩, [oreq])
      else
        match r.bodyJson with
        | .ok data => (⟨200, [], .json data⟩, [oreq])
        | .error m => (⟨500, [], .json (handleApiError m "Nijivoice")⟩, [oreq])

/-- The upstream request of the generate-voice route: the path parameter
is spliced into the upstream path, the inbound JSON body is forwarded
verbatim, auth is header-based. -/
def nijivoiceGenerateReq (apiKey voiceActorId : String)
    (body : List (String × Json)) : OutboundRequest :=
  { method := "POST"
    url := "https://api.nijivoice.com/api/platform/v1/voice-actors/"
      ++ voiceActorId ++ "/generate-voice"
    query := []
    headers := [("Content-Type", "application/json"),
                ("Accept", "application/json"), ("x-api-key", apiKey)]
    body := some (.obj body) }

/-- Express handler for
`POST /api/proxy/nijivoice/generate-voice/:voiceActorId`.  On upstream
failure the raw upstream body text is placed verbatim in `details`. -/
def nijivoiceGenerateHandler (cfg : Config)
    (upstream : OutboundRequest → UpstreamResult)
    (voiceActorId : String) (body : List (String × Json)) :
    Response × List OutboundRequest :=
  if !truthy cfg.nijivoice then
    (⟨500, [], .json (.obj [("error", .str "Nijivoice API key not configured")])⟩, [])
  else
    let oreq := nijivoiceGenerateReq (keyVal cfg.nijivoice) voiceActorId body
    match upstream oreq with
    | .netErr m => (⟨500, [], .json (handleApiError m "Nijivoice")⟩, [oreq])
    | .resp r =>
      if !respOk r then
        (⟨r.status, [],
          .json (.obj [("error", .str "Nijivoice voice generation failed"),
                       ("status", .num (r.status : Int)),
                       ("details", .str r.bodyText)])⟩, [oreq])
      else
        match r.bodyJson with
        | .ok data => (⟨200, [], .json data⟩, [oreq])
        | .error m => (⟨500, [], .json (handleApiError m "Nijivoice")⟩, [oreq])

/-! ## Express fetch-audio and health -/

/-- The upstream request of `GET /fetch-audio`: the caller-supplied URL
is fetched as-is, with no credential and no extra headers. -/
def fetchAudioReq (audioUrl : String) : OutboundRequest :=
  ⟨"GET", audioUrl, [], [], none⟩

/-- Express handler for `GET /fetch-audio`.  A falsy `url` parameter
(absent or empty) is rejected with 400 before any outbound call. -/
def fetchAudioHandler (upstream : OutboundRequest → UpstreamResult)
    (q : List (String × String)) : Response × List OutboundRequest :=
  if (q.lookup "url").getD "" == "" then
    (⟨400, [], .json (.obj [("error", .str "URL parameter is required")])⟩, [])
  else
    let oreq := fetchAudioReq ((q.lookup "url").getD "")
    match upstream oreq with
    | .netErr _ => (⟨500, [], .json (.obj [("error", .str "Internal server error")])⟩, [oreq])
    | .resp r =>
      if !respOk r then
        (⟨r.status, [],
          .json (.obj [("error", .str ("Failed to fetch audio: " ++ r.statusText))])⟩,
         [oreq])
      else
        (⟨200, [("Content-Type", r.contentType.getD "audio/mpeg"),
                ("Access-Control-Allow-Origin", "*"),
                ("Cache-Control", "public, max-age=3600")],
          .bytes r.bodyText⟩, [oreq])

/-- The health body: each services boolean is exactly the truthiness of
the corresponding configured credential. -/
def healthBody (cfg : Config) (now : String) : Json :=
  .obj [("status", .str "OK"),
        ("timestamp", .str now),
        ("services", .obj [("gemini", .bool (truthy cfg.gemini)),
                           ("voicevox", .bool (truthy cfg.voicevox)),
                           ("nijivoice", .bool (truthy cfg.nijivoice))])]

/-- Express handler for `GET /api/health` (`res.json` defaults the status
to 200; `now` stands for `new Date().toISOString()`). -/
def healthResponse (cfg : Config) (now : String) : Response :=
  ⟨200, [], .json (healthBody cfg now)⟩

/-! ## Express routing -/

/-- ASCII lowercasing of one character, the normalization behind
Express's default case-insensitive route matching
(`caseSensitive: false`). -/
def lowerChar (c : Char) : Char :=
  if 65 ≤ c.toNat && c.toNat ≤ 90 then Char.ofNat (c.toNat + 32) else c

/-- Drop one trailing slash unless it is the only character: Express's
default non-strict routing (`strict: false`) lets every route also
match with a single optional trailing slash. -/
def dropTrailingSlash (l : List Char) : List Char :=
  match l.reverse with
  | [] => l
  | c :: rest => if c == Char.ofNat 47 && !rest.isEmpty then rest.reverse else l

/-- The characters of a request path as the router compares them: at
most one trailing slash ignored (case is handled at the comparison). -/
def routeChars (p : String) : List Char :=
  dropTrailingSlash p.toList

/-- Express route matching of a request path against a fixed route
path: case-insensitive comparison after trailing-slash normalization
(the app uses the Express defaults `caseSensitive: false`,
`strict: false`). -/
def pathIs (p route : String) : Bool :=
  (routeChars p).map lowerChar == route.toList

/-- Express GET routes also answer HEAD requests (the router falls back
to the GET handler and the transport strips the body — the handler
computation is identical, so the model returns the same response).  The
static middleware likewise serves GET and HEAD. -/
def getOrHead (m : String) : Bool :=
  m == "GET" || m == "HEAD"

/-- Express `:voiceActorId` segment matching for
`/api/proxy/nijivoice/generate-voice/:voiceActorId`: the path must
extend the fixed route stem by exactly one nonempty slash-free segment.
The stem is matched case-insensitively and one trailing slash is
tolerated (Express defaults), while the captured segment keeps its
original case, as a route parameter does. -/
def genVoiceSeg (p : String) : Option String :=
  let stem := "/api/proxy/nijivoice/generate-voice/"
  if stem.toList.isPrefixOf ((routeChars p).map lowerChar) then
    let rest := (routeChars p).drop stem.toList.length
    if !rest.isEmpty && !(rest.contains (Char.ofNat 47)) then
      some (String.mk rest)
    else none
  else none

/-- The Express app, middleware in source order: the cors middleware
first, which short-circuits every OPTIONS request (pre-flight) with 204
and no body before routing (its CORS headers depend on the request
origin and are not modeled); then static files (GET/HEAD only;
`staticFiles` maps a raw path to the served file's contents); then the
routes in source order, matched case-insensitively with an optional
trailing slash and with HEAD served by GET routes; then the 404
handler. -/
def dispatch (cfg : Config) (staticFiles : String → Option String)
    (now : String) (upstream : OutboundRequest → UpstreamResult)
    (req : Request) : Response × List OutboundRequest :=
  if req.method == "OPTIONS" then
    (⟨204, [], .empty⟩, [])
  else if getOrHead req.method && (staticFiles req.path).isSome then
    (⟨200, [], .file ((staticFiles req.path).getD "")⟩, [])
  else if req.method == "POST" && pathIs req.path "/api/proxy/gemini" then
    geminiHandler cfg upstream req.body
  else if getOrHead req.method && pathIs req.path "/api/proxy/voicevox/speakers" then
    voicevoxSpeakersHandler cfg upstream
  else if getOrHead req.method && pathIs req.path "/api/proxy/voicevox/audio" then
    voicevoxAudioHandler cfg upstream req.query
  else if getOrHead req.method && pathIs req.path "/api/proxy/nijivoice/voice-actors" then
    nijivoiceActorsHandler cfg upstream
  else if req.method == "POST" && (genVoiceSeg req.path).isSome then
    nijivoiceGenerateHandler cfg upstream ((genVoiceSeg req.path).getD "") req.body
  else if getOrHead req.method && pathIs req.path "/fetch-audio" then
    fetchAudioHandler upstream req.query
  else if getOrHead req.method && pathIs req.path "/api/health" then
    (healthResponse cfg now, [])
  else if getOrHead req.method && pathIs req.path "/" then
    (⟨200, [], .file "index.html"⟩, [])
  else
    (notFoundResp, [])

/-! ## Cloudflare Pages Functions variants -/

/-- CORS headers of the Pages Gemini function. -/
def pagesGeminiCors : List (String × String) :=
  [("Access-Control-Allow-Origin", "*"),
   ("Access-Control-Allow-Methods", "POST, OPTIONS"),
   ("Access-Control-Allow-Headers", "Content-Type")]

/-- CORS headers of the Pages VOICEVOX function. -/
def pagesVoicevoxCors : List (String × String) :=
  [("Access-Control-Allow-Origin", "*"),
   ("Access-Control-Allow-Methods", "GET, OPTIONS"),
   ("Access-Control-Allow-Headers", "Content-Type")]

/-- CORS headers of the Pages Nijivoice function. -/
def pagesNijivoiceCors : List (String × String) :=
  [("Access-Control-Allow-Origin", "*"),
   ("Access-Control-Allow-Methods", "GET, POST, OPTIONS"),
   ("Access-Control-Allow-Headers", "Content-Type")]

/-- CORS plus the JSON content type, the header set of every JSON reply
of a Pages function. -/
def pagesJsonHeaders (cors : List (String × String)) : List (String × String) :=
  cors ++ [("Content-Type", "application/json")]

/-- The model identifier the Pages Gemini function substitutes:
`const { model = 'gemini-2.0-flash', ...body } = requestBody` — the
destructuring default applies only when the field is absent, so a
present falsy value (empty string, null, 0) is used as-is.  This differs
from the Express variant's `model || 'gemini-2.0-flash'`. -/
def pagesGeminiModel (body : List (String × Json)) : String :=
  match body.lookup "model" with
  | some v => jsToString v
  | none => "gemini-2.0-flash"

/-- The upstream request the Pages Gemini function builds. -/
def pagesGeminiUpstreamReq (apiKey : String) (body : List (String × Json)) :
    OutboundRequest :=
  { method := "POST"
    url := "https://generativelanguage.googleapis.com/v1/models/"
      ++ pagesGeminiModel body ++ ":generateContent?key=" ++ apiKey
    query := []
    headers := [("Content-Type", "application/json")]
    body := some (.obj (dropModel body)) }

/-- The Pages Gemini function (`onRequestPost`), after the inbound JSON
body has been parsed (the OPTIONS pre-flight branch and a failing
`request.json()` are outside this model). -/
def pagesGemini (cfg : Config) (body : List (String × Json))
    (upstream : OutboundRequest → UpstreamResult) :
    Response × List OutboundRequest :=
  let hdrs := pagesJsonHeaders pagesGeminiCors
  if !truthy cfg.gemini then
    (⟨500, hdrs, .json (.obj [("error", .str "Gemini API key not configured")])⟩, [])
  else
    let oreq := pagesGeminiUpstreamReq (keyVal cfg.gemini) body
    match upstream oreq with
    | .netErr m =>
      (⟨500, hdrs, .json (.obj [("error", .str "Internal server error"),
                                ("details", .str m)])⟩, [oreq])
    | .resp r =>
      if respOk r then
        match r.bodyJson with
        | .ok data => (⟨200, hdrs, .json data⟩, [oreq])
        | .error m =>
          (⟨500, hdrs, .json (.obj [("error", .str "Internal server error"),
                                    ("details", .str m)])⟩, [oreq])
      else if occurs "not found for API version" r.bodyText then
        (⟨400, hdrs, .json geminiAltBody⟩, [oreq])
      else
        (⟨r.status, hdrs,
          .json (.obj [("error", .str "Gemini API request failed"),
                       ("details", .str r.bodyText)])⟩, [oreq])

/-- The `URLSearchParams` list the Pages VOICEVOX audio branch builds:
every inbound query parameter is copied through unchanged (no required
parameters, no defaults) and the credential is appended. -/
def pagesVoicevoxAudioParams (apiKey : String) (q : List (String × String)) :
    List (String × String) :=
  q ++ [("key", apiKey)]

/-- The upstream request of the Pages VOICEVOX audio branch. -/
def pagesVoicevoxAudioReq (apiKey : String) (q : List (String × String)) :
    OutboundRequest :=
  { method := "GET"
    url := "https://deprecatedapis.tts.quest/v2/voicevox/audio/?"
    query := pagesVoicevoxAudioParams apiKey q
    headers := [("Accept", "audio/wav,audio/*")]
    body := none }

/-- JS `pathname.endsWith(t)`. -/
def endsWithL (s t : String) : Bool :=
  t.toList.isSuffixOf s.toList

/-- The Pages VOICEVOX function (`onRequestGet`): dispatches on the path
suffix to the speakers or audio branch, else 404. -/
def pagesVoicevox (cfg : Config) (pathname : String)
    (q : List (String × String))
    (upstream : OutboundRequest → UpstreamResult) :
    Response × List OutboundRequest :=
  let hdrs := pagesJsonHeaders pagesVoicevoxCors
  if !truthy cfg.voicevox then
    (⟨500, hdrs, .json (.obj [("error", .str "VOICEVOX API key not configured")])⟩, [])
  else if endsWithL pathname "/speakers" then
    let oreq := voicevoxSpeakersReq (keyVal cfg.voicevox)
    match upstream oreq with
    | .netErr m =>
      (⟨500, hdrs, .json (.obj [("error", .str "Internal server error"),
                                ("details", .str m)])⟩, [oreq])
    | .resp r =>
      if !respOk r then
        (⟨r.status, hdrs,
          .json (.obj [("error", .str "VOICEVOX speakers request failed"),
                       ("status", .num (r.status : Int))])⟩, [oreq])
      else
        match r.bodyJson with
        | .ok data => (⟨200, hdrs, .json data⟩, [oreq])
        | .error m =>
          (⟨500, hdrs, .json (.obj [("error", .str "Internal server error"),
                                    ("details", .str m)])⟩, [oreq])
  else if endsWithL pathname "/audio" then
    let oreq := pagesVoicevoxAudioReq (keyVal cfg.voicevox) q
    match upstream oreq with
    | .netErr m =>
      (⟨500, hdrs, .json (.obj [("error", .str "Internal server error"),
                                ("details", .str m)])⟩, [oreq])
    | .resp r =>
      if !respOk r then
        (⟨r.status, hdrs,
          .json (.obj [("error", .str "VOICEVOX audio synthesis failed"),
                       ("status", .num (r.status : Int))])⟩, [oreq])
      else
        (⟨200, pagesVoicevoxCors
            ++ [("Content-Type", r.contentType.getD "audio/wav"),
                ("Content-Length", r.contentLength.getD "null")],
          .bytes r.bodyText⟩, [oreq])
  else
    (⟨404, hdrs, .json (.obj [("error", .str "Endpoint not found")])⟩, [])

/-- Split a character list at every slash, JS `pathname.split('/')`. -/
def splitSlashAux (acc : List Char) : List Char → List String
  | [] => [String.mk acc.reverse]
  | c :: rest =>
    if c == Char.ofNat 47 then String.mk acc.reverse :: splitSlashAux [] rest
    else splitSlashAux (c :: acc) rest

/-- JS `pathname.split('/')`. -/
def splitSlash (s : String) : List String :=
  splitSlashAux [] s.toList

/-- JS `parts.join('/')`. -/
def joinSlash : List String → String
  | [] => ""
  | [s] => s
  | s :: rest => s ++ "/" ++ joinSlash rest

/-- The `apiPath` computed by the Pages Nijivoice function: split the
pathname on slashes, drop everything up to and including the segment
"nijivoice" (JS `findIndex` yields -1 when absent, making `slice(0)`
keep every segment), and re-join. -/
def nijiApiPath (pathname : String) : String :=
  let parts := (splitSlash pathname).filter (fun s => !(s == ""))
  match parts.findIdx? (fun s => s == "nijivoice") with
  | some i => joinSlash (parts.drop (i + 1))
  | none => joinSlash parts

/-- The JS regex match `apiPath.match(/generate-voice\/([^\/]+)/)` over a
character list: find the first occurrence of "generate-voice/" that is
followed by at least one non-slash character; on an empty capture the
regex engine moves on to a later occurrence. -/
def genVoiceIdAux : List Char → Option String
  | [] => none
  | c :: rest =>
    if ("generate-voice/".toList).isPrefixOf (c :: rest) then
      let cap := ((c :: rest).drop 15).takeWhile (fun ch => !(ch == Char.ofNat 47))
      if cap.isEmpty then genVoiceIdAux rest else some (String.mk cap)
    else genVoiceIdAux rest

/-- The captured voice-actor id, if the regex matches. -/
def genVoiceId (apiPath : String) : Option String :=
  genVoiceIdAux apiPath.toList

/-- The Pages Nijivoice catch-all function (`handleNijivoiceRequest`),
after the URL has been parsed; `body` is the parsed JSON body used by
the generate-voice branch (the OPTIONS pre-flight branch is outside this
model).  Note the function never checks the method when choosing a
branch. -/
def pagesNijivoice (cfg : Config) (pathname : String)
    (body : List (String × Json))
    (upstream : OutboundRequest → UpstreamResult) :
    Response × List OutboundRequest :=
  let hdrs := pagesJsonHeaders pagesNijivoiceCors
  if !truthy cfg.nijivoice then
    (⟨500, hdrs, .json (.obj [("error", .str "Nijivoice API key not configured")])⟩, [])
  else
    let apiPath := nijiApiPath pathname
    if apiPath == "voice-actors" then
      let oreq := nijivoiceActorsReq (keyVal cfg.nijivoice)
      match upstream oreq with
      | .netErr m =>
        (⟨500, hdrs, .json (.obj [("error", .str "Internal server error"),
                                  ("details", .str m)])⟩, [oreq])
      | .resp r =>
        if !respOk r then
          (⟨r.status, hdrs,
            .json (.obj [("error", .str "Nijivoice voice actors request failed"),
                         ("status", .num (r.status : Int))])⟩, [oreq])
        else
          match r.bodyJson with
          | .ok data => (⟨200, hdrs, .json data⟩, [oreq])
          | .error m =>
            (⟨500, hdrs, .json (.obj [("error", .str "Internal server error"),
                                      ("details", .str m)])⟩, [oreq])
    else if occurs "generate-voice" apiPath then
      match genVoiceId apiPath with
      | none =>
        (⟨400, hdrs, .json (.obj [("error", .str "Voice actor ID not found in path")])⟩, [])
      | some voiceActorId =>
        let oreq := nijivoiceGenerateReq (keyVal cfg.nijivoice) voiceActorId body
        match upstream oreq with
        | .netErr m =>
          (⟨500, hdrs, .json (.obj [("error", .str "Internal server error"),
                                    ("details", .str m)])⟩, [oreq])
        | .resp r =>
          if !respOk r then
            (⟨r.status, hdrs,
              .json (.obj [("error", .str "Nijivoice voice generation failed"),
                           ("status", .num (r.status : Int)),
                           ("details", .str r.bodyText)])⟩, [oreq])
          else
            match r.bodyJson with
            | .ok data => (⟨200, hdrs, .json data⟩, [oreq])
            | .error m =>
              (⟨500, hdrs, .json (.obj [("error", .str "Internal server error"),
                                        ("details", .str m)])⟩, [oreq])
    else
      (⟨404, hdrs, .json (.obj [("error", .str "Endpoint not found")])⟩, [])

/-! ## Credential-occurrence predicates

The security claim asks that the configured credential never appear in a
gateway response.  `Json.hasStr` looks for a substring occurrence in any
string atom or object key of a JSON document, and `Response.hasStr`
extends this over a full response (body and handler-set headers). -/

mutual

/-- Does `needle` occur in some string atom or object key of a JSON
document? -/
def Json.hasStr (needle : String) : Json → Bool
  | .null => false
  | .bool _ => false
  | .num _ => false
  | .str s => occurs needle s
  | .arr l => Json.listHasStr needle l
  | .obj fs => Json.fieldsHasStr needle fs

/-- `Json.hasStr` over an array's elements. -/
def Json.listHasStr (needle : String) : List Json → Bool
  | [] => false
  | j :: t => Json.hasStr needle j || Json.listHasStr needle t

/-- `Json.hasStr` over an object's fields (keys included). -/
def Json.fieldsHasStr (needle : String) : List (String × Json) → Bool
  | [] => false
  | (k, j) :: t =>
    occurs needle k || Json.hasStr needle j || Json.fieldsHasStr needle t

end

/-- Does `needle` occur in a header name or value? -/
def headersHaveStr (needle : String) (hs : List (String × String)) : Bool :=
  hs.any (fun kv => occurs needle kv.1 || occurs needle kv.2)

/-- Does `needle` occur anywhere in a gateway response: its JSON body,
piped bytes, served file contents, or handler-set headers? -/
def Response.hasStr (needle : String) (resp : Response) : Bool :=
  (match resp.body with
   | .json j => Json.hasStr needle j
   | .bytes s => occurs needle s
   | .file contents => occurs needle contents
   | .empty => false) ||
  headersHaveStr needle resp.headers

/-- No string the upstream hands back contains `needle`: the raw body
text, the composed fetch-audio failure message (the one place
`statusText` reaches a response, concatenated after a constant), any
header the gateway reads, the parsed JSON content, and the message of a
json-parse failure or of a network error. -/
def upstreamResultSafe (needle : String) : UpstreamResult → Prop
  | .netErr m => occurs needle m = false
  | .resp r =>
    occurs needle r.bodyText = false ∧
    occurs needle ("Failed to fetch audio: " ++ r.statusText) = false ∧
    (∀ v, r.contentType = some v → occurs needle v = false) ∧
    (∀ v, r.contentLength = some v → occurs needle v = false) ∧
    (∀ j, r.bodyJson = .ok j → Json.hasStr needle j = false) ∧
    (∀ m, r.bodyJson = .error m → occurs needle m = false)

/-- Every string literal the Express gateway can place into a response:
JSON field names, fixed error messages, the fixed model alternatives,
the health field values, and fixed header names/values. -/
def gatewayLiterals : List String :=
  ["error", "service", "details", "status", "suggestion", "alternatives",
   "timestamp", "services",
   "Gemini", "VOICEVOX", "Nijivoice", "gemini", "voicevox", "nijivoice",
   "Gemini API key not configured", "VOICEVOX API key not configured",
   "Nijivoice API key not configured",
   "Model not found", "Try alternative model names",
   "gemini-pro", "gemini-1.0-pro", "gemini-1.5-flash",
   "Gemini API request failed", "VOICEVOX speakers request failed",
   "VOICEVOX audio synthesis failed",
   "Nijivoice voice actors request failed",
   "Nijivoice voice generation failed",
   "Network connection failed", "API endpoint not found",
   "Authentication failed", "Rate limit exceeded", "Unknown error occurred",
   "URL parameter is required", "Internal server error", "Endpoint not found",
   "OK", "Content-Type", "Content-Length", "null",
   "audio/wav", "audio/mpeg",
   "Access-Control-Allow-Origin", "*", "Cache-Control",
   "public, max-age=3600", "index.html"]

/-- `needle` occurs in none of the gateway's own string literals. -/
def litSafe (needle : String) : Prop :=
  ∀ c ∈ gatewayLiterals, occurs needle c = false

/-! ## Credential-confinement lemmas, one per handler -/

theorem occurs_getD (key d : String) (o : Option String)
    (h1 : ∀ v, o = some v → occurs key v = false)
    (h2 : occurs key d = false) : occurs key (o.getD d) = false := by
  cases o with
  | none => simpa using h2
  | some v => simpa using h1 v rfl

theorem handleApiError_safe (key m service : String)
    (hm : occurs key m = false) (hs : occurs key service = false)
    (hlit : litSafe key) :
    Json.hasStr key (handleApiError m service) = false := by
  have h1 := hlit "error" (by decide)
  have h2 := hlit "service" (by decide)
  have h3 := hlit "details" (by decide)
  have h4 := hlit "Network connection failed" (by decide)
  have h5 := hlit "API endpoint not found" (by decide)
  have h6 := hlit "Authentication failed" (by decide)
  have h7 := hlit "Rate limit exceeded" (by decide)
  have h8 := hlit "Unknown error occurred" (by decide)
  unfold handleApiError
  split_ifs <;>
    simp [Json.hasStr, Json.fieldsHasStr, h1, h2, h3, h4, h5, h6, h7, h8, hm, hs]

theorem geminiHandler_safe (key : String) (cfg : Config)
    (upstream : OutboundRequest → UpstreamResult)
    (body : List (String × Json))
    (hup : ∀ o, upstreamResultSafe key (upstream o)) (hlit : litSafe key) :
    Response.hasStr key (geminiHandler cfg upstream body).1 = false := by
  have h1 := hlit "error" (by decide)
  have h2 := hlit "Gemini API key not configured" (by decide)
  have h3 := hlit "details" (by decide)
  have h4 := hlit "Gemini API request failed" (by decide)
  have h5 := hlit "Gemini" (by decide)
  have h6 := hlit "Model not found" (by decide)
  have h7 := hlit "suggestion" (by decide)
  have h8 := hlit "Try alternative model names" (by decide)
  have h9 := hlit "alternatives" (by decide)
  have h10 := hlit "gemini-pro" (by decide)
  have h11 := hlit "gemini-1.0-pro" (by decide)
  have h12 := hlit "gemini-1.5-flash" (by decide)
  unfold geminiHandler
  split
  · simp [Response.hasStr, headersHaveStr, Json.hasStr, Json.fieldsHasStr, h1, h2]
  · cases h : upstream (geminiUpstreamReq (keyVal cfg.gemini) body) with
    | netErr m =>
      have hm := hup (geminiUpstreamReq (keyVal cfg.gemini) body)
      rw [h] at hm
      simp only [upstreamResultSafe] at hm
      simp [h, Response.hasStr, headersHaveStr,
        handleApiError_safe key m "Gemini" hm h5 hlit]
    | resp r =>
      have hr := hup (geminiUpstreamReq (keyVal cfg.gemini) body)
      rw [h] at hr
      obtain ⟨hb, hstx, hct, hcl, hok, herr⟩ := hr
      by_cases hresp : respOk r = true
      · cases hj : r.bodyJson with
        | ok data =>
          simp [h, hresp, hj, Response.hasStr, headersHaveStr, hok data hj]
        | error m =>
          simp [h, hresp, hj, Response.hasStr, headersHaveStr,
            handleApiError_safe key m "Gemini" (herr m hj) h5 hlit]
      · simp only [Bool.not_eq_true] at hresp
        by_cases hnf : occurs "not found for API version" r.bodyText = true
        · simp [h, hresp, hnf, Response.hasStr, headersHaveStr, geminiAltBody,
            geminiAlternatives, Json.hasStr, Json.fieldsHasStr, Json.listHasStr,
            h1, h6, h7, h8, h9, h10, h11, h12]
        · simp only [Bool.not_eq_true] at hnf
          simp [h, hresp, hnf, Response.hasStr, headersHaveStr, Json.hasStr,
            Json.fieldsHasStr, h1, h3, h4, hb]

theorem voicevoxSpeakersHandler_safe (key : String) (cfg : Config)
    (upstream : OutboundRequest → UpstreamResult)
    (hup : ∀ o, upstreamResultSafe key (upstream o)) (hlit : litSafe key) :
    Response.hasStr key (voicevoxSpeakersHandler cfg upstream).1 = false := by
  have h1 := hlit "error" (by decide)
  have h2 := hlit "VOICEVOX API key not configured" (by decide)
  have h3 := hlit "VOICEVOX speakers request failed" (by decide)
  have h4 := hlit "status" (by decide)
  have h5 := hlit "VOICEVOX" (by decide)
  unfold voicevoxSpeakersHandler
  split
  · simp [Response.hasStr, headersHaveStr, Json.hasStr, Json.fieldsHasStr, h1, h2]
  · cases h : upstream (voicevoxSpeakersReq (keyVal cfg.voicevox)) with
    | netErr m =>
      have hm := hup (voicevoxSpeakersReq (keyVal cfg.voicevox))
      rw [h] at hm
      simp only [upstreamResultSafe] at hm
      simp [h, Response.hasStr, headersHaveStr,
        handleApiError_safe key m "VOICEVOX" hm h5 hlit]
    | resp r =>
      have hr := hup (voicevoxSpeakersReq (keyVal cfg.voicevox))
      rw [h] at hr
      obtain ⟨hb, hstx, hct, hcl, hok, herr⟩ := hr
      by_cases hresp : respOk r = true
      · cases hj : r.bodyJson with
        | ok data =>
          simp [h, hresp, hj, Response.hasStr, headersHaveStr, hok data hj]
        | error m =>
          simp [h, hresp, hj, Response.hasStr, headersHaveStr,
            handleApiError_safe key m "VOICEVOX" (herr m hj) h5 hlit]
      · simp only [Bool.not_eq_true] at hresp
        simp [h, hresp, Response.hasStr, headersHaveStr, Json.hasStr,
          Json.fieldsHasStr, h1, h3, h4]

theorem voicevoxAudioHandler_safe (key : String) (cfg : Config)
    (upstream : OutboundRequest → UpstreamResult)
    (q : List (String × String))
    (hup : ∀ o, upstreamResultSafe key (upstream o)) (hlit : litSafe key) :
    Response.hasStr key (voicevoxAudioHandler cfg upstream q).1 = false := by
  have h1 := hlit "error" (by decide)
  have h2 := hlit "VOICEVOX API key not configured" (by decide)
  have h3 := hlit "VOICEVOX audio synthesis failed" (by decide)
  have h4 := hlit "status" (by decide)
  have h5 := hlit "VOICEVOX" (by decide)
  have h6 := hlit "Content-Type" (by decide)
  have h7 := hlit "Content-Length" (by decide)
  have h8 := hlit "audio/wav" (by decide)
  have h9 := hlit "null" (by decide)
  unfold voicevoxAudioHandler
  split
  · simp [Response.hasStr, headersHaveStr, Json.hasStr, Json.fieldsHasStr, h1, h2]
  · cases h : upstream (voicevoxAudioReq (keyVal cfg.voicevox) q) with
    | netErr m =>
      have hm := hup (voicevoxAudioReq (keyVal cfg.voicevox) q)
      rw [h] at hm
      simp only [upstreamResultSafe] at hm
      simp [h, Response.hasStr, headersHaveStr,
        handleApiError_safe key m "VOICEVOX" hm h5 hlit]
    | resp r =>
      have hr := hup (voicevoxAudioReq (keyVal cfg.voicevox) q)
      rw [h] at hr
      obtain ⟨hb, hstx, hct, hcl, hok, herr⟩ := hr
      by_cases hresp : respOk r = true
      · simp [h, hresp, Response.hasStr, headersHaveStr, hb, h6, h7,
          occurs_getD key "audio/wav" r.contentType hct h8,
          occurs_getD key "null" r.contentLength hcl h9]
      · simp only [Bool.not_eq_true] at hresp
        simp [h, hresp, Response.hasStr, headersHaveStr, Json.hasStr,
          Json.fieldsHasStr, h1, h3, h4]

theorem nijivoiceActorsHandler_safe (key : String) (cfg : Config)
    (upstream : OutboundRequest → UpstreamResult)
    (hup : ∀ o, upstreamResultSafe key (upstream o)) (hlit : litSafe key) :
    Response.hasStr key (nijivoiceActorsHandler cfg upstream).1 = false := by
  have h1 := hlit "error" (by decide)
  have h2 := hlit "Nijivoice API key not configured" (by decide)
  have h3 := hlit "Nijivoice voice actors request failed" (by decide)
  have h4 := hlit "status" (by decide)
  have h5 := hlit "Nijivoice" (by decide)
  unfold nijivoiceActorsHandler
  split
  · simp [Response.hasStr, headersHaveStr, Json.hasStr, Json.fieldsHasStr, h1, h2]
  · cases h : upstream (nijivoiceActorsReq (keyVal cfg.nijivoice)) with
    | netErr m =>
      have hm := hup (nijivoiceActorsReq (keyVal cfg.nijivoice))
      rw [h] at hm
      simp only [upstreamResultSafe] at hm
      simp [h, Response.hasStr, headersHaveStr,
        handleApiError_safe key m "Nijivoice" hm h5 hlit]
    | resp r =>
      have hr := hup (nijivoiceActorsReq (keyVal cfg.nijivoice))
      rw [h] at hr
      obtain ⟨hb, hstx, hct, hcl, hok, herr⟩ := hr
      by_cases hresp : respOk r = true
      · cases hj : r.bodyJson with
        | ok data =>
          simp [h, hresp, hj, Response.hasStr, headersHaveStr, hok data hj]
        | error m =>
          simp [h, hresp, hj, Response.hasStr, headersHaveStr,
            handleApiError_safe key m "Nijivoice" (herr m hj) h5 hlit]
      · simp only [Bool.not_eq_true] at hresp
        simp [h, hresp, Response.hasStr, headersHaveStr, Json.hasStr,
          Json.fieldsHasStr, h1, h3, h4]

theorem nijivoiceGenerateHandler_safe (key : String) (cfg : Config)
    (upstream : OutboundRequest → UpstreamResult)
    (voiceActorId : String) (body : List (String × Json))
    (hup : ∀ o, upstreamResultSafe key (upstream o)) (hlit : litSafe key) :
    Response.hasStr key
      (nijivoiceGenerateHandler cfg upstream voiceActorId body).1 = false := by
  have h1 := hlit "error" (by decide)
  have h2 := hlit "Nijivoice API key not configured" (by decide)
  have h3 := hlit "Nijivoice voice generation failed" (by decide)
  have h4 := hlit "status" (by decide)
  have h5 := hlit "Nijivoice" (by decide)
  have h6 := hlit "details" (by decide)
  unfold nijivoiceGenerateHandler
  split
  · simp [Response.hasStr, headersHaveStr, Json.hasStr, Json.fieldsHasStr, h1, h2]
  · cases h : upstream (nijivoiceGenerateReq (keyVal cfg.nijivoice) voiceActorId body) with
    | netErr m =>
      have hm := hup (nijivoiceGenerateReq (keyVal cfg.nijivoice) voiceActorId body)
      rw [h] at hm
      simp only [upstreamResultSafe] at hm
      simp [h, Response.hasStr, headersHaveStr,
        handleApiError_safe key m "Nijivoice" hm h5 hlit]
    | resp r =>
      have hr := hup (nijivoiceGenerateReq (keyVal cfg.nijivoice) voiceActorId body)
      rw [h] at hr
      obtain ⟨hb, hstx, hct, hcl, hok, herr⟩ := hr
      by_cases hresp : respOk r = true
      · cases hj : r.bodyJson with
        | ok data =>
          simp [h, hresp, hj, Response.hasStr, headersHaveStr, hok data hj]
        | error m =>
          simp [h, hresp, hj, Response.hasStr, headersHaveStr,
            handleApiError_safe key m "Nijivoice" (herr m hj) h5 hlit]
      · simp only [Bool.not_eq_true] at hresp
        simp [h, hresp, Response.hasStr, headersHaveStr, Json.hasStr,
          Json.fieldsHasStr, h1, h3, h4, h6, hb]

theorem fetchAudioHandler_safe (key : String)
    (upstream : OutboundRequest → UpstreamResult)
    (q : List (String × String))
    (hup : ∀ o, upstreamResultSafe key (upstream o)) (hlit : litSafe key) :
    Response.hasStr key (fetchAudioHandler upstream q).1 = false := by
  have h1 := hlit "error" (by decide)
  have h2 := hlit "URL parameter is required" (by decide)
  have h3 := hlit "Internal server error" (by decide)
  have h4 := hlit "Content-Type" (by decide)
  have h5 := hlit "audio/mpeg" (by decide)
  have h6 := hlit "Access-Control-Allow-Origin" (by decide)
  have h7 := hlit "*" (by decide)
  have h8 := hlit "Cache-Control" (by decide)
  have h9 := hlit "public, max-age=3600" (by decide)
  unfold fetchAudioHandler
  split
  · simp [Response.hasStr, headersHaveStr, Json.hasStr, Json.fieldsHasStr, h1, h2]
  · cases h : upstream (fetchAudioReq ((q.lookup "url").getD "")) with
    | netErr m =>
      simp [h, Response.hasStr, headersHaveStr, Json.hasStr, Json.fieldsHasStr,
        h1, h3]
    | resp r =>
      have hr := hup (fetchAudioReq ((q.lookup "url").getD ""))
      rw [h] at hr
      obtain ⟨hb, hstx, hct, hcl, hok, herr⟩ := hr
      by_cases hresp : respOk r = true
      · simp [h, hresp, Response.hasStr, headersHaveStr, hb, h4, h6, h7, h8, h9,
          occurs_getD key "audio/mpeg" r.contentType hct h5]
      · simp only [Bool.not_eq_true] at hresp
        simp [h, hresp, Response.hasStr, headersHaveStr, Json.hasStr,
          Json.fieldsHasStr, h1, hstx]

theorem healthResponse_safe (key : String) (cfg : Config) (now : String)
    (hnow : occurs key now = false) (hlit : litSafe key) :
    Response.hasStr key (healthResponse cfg now) = false := by
  have h1 := hlit "status" (by decide)
  have h2 := hlit "OK" (by decide)
  have h3 := hlit "timestamp" (by decide)
  have h4 := hlit "services" (by decide)
  have h5 := hlit "gemini" (by decide)
  have h6 := hlit "voicevox" (by decide)
  have h7 := hlit "nijivoice" (by decide)
  simp [healthResponse, healthBody, Response.hasStr, headersHaveStr,
    Json.hasStr, Json.fieldsHasStr, h1, h2, h3, h4, h5, h6, h7, hnow]

/-! ## Claim C1 -/

/-- C1, counterexample.  The claim says the credential never appears in
the body passed back in `details`, even for an upstream error body
containing the literal credential string.  In the code the Nijivoice
generate-voice handler copies the upstream error body verbatim into
`details`: with credential "SECRETKEY123" and an upstream 403 whose body
embeds the credential, the response body contains the credential.  (The
Gemini handler behaves the same on its pass-through error branch.) -/
theorem c1_details_echoes_credential_cex :
    (dispatch ⟨none, none, some "SECRETKEY123"⟩ (fun _ => none) "T"
        (fun _ => .resp ⟨403, "Forbidden", none, none,
          "invalid api key SECRETKEY123 rejected", .error "parse"⟩)
        ⟨"POST", "/api/proxy/nijivoice/generate-voice/abc", [], []⟩).1 =
      ⟨403, [], .json (.obj
        [("error", .str "Nijivoice voice generation failed"),
         ("status", .num 403),
         ("details", .str "invalid api key SECRETKEY123 rejected")])⟩ ∧
    Response.hasStr "SECRETKEY123"
      (dispatch ⟨none, none, some "SECRETKEY123"⟩ (fun _ => none) "T"
        (fun _ => .resp ⟨403, "Forbidden", none, none,
          "invalid api key SECRETKEY123 rejected", .error "parse"⟩)
        ⟨"POST", "/api/proxy/nijivoice/generate-voice/abc", [], []⟩).1 = true := by
  constructor
  · set_option maxRecDepth 20000 in rfl
  · decide

set_option maxHeartbeats 2000000 in
/-- C1 (amended): the gateway never writes the credential into a
response of its own accord — for every route and every upstream failure
mode, as long as no upstream-provided string (error body text, status
text, headers read by the gateway, parsed JSON content, json-parse or
network error message) contains the credential, and no served static
asset and not the timestamp contain it, the response body and
handler-set headers are free of the credential.  What the
counterexample removes from the original claim: an upstream error body
that does contain the literal credential string is NOT stripped — it is
echoed verbatim into `details`. -/
theorem c1_credential_confined (cfg : Config)
    (staticFiles : String → Option String) (now : String)
    (upstream : OutboundRequest → UpstreamResult) (req : Request)
    (key : String)
    (hup : ∀ o, upstreamResultSafe key (upstream o))
    (hstat : ∀ p c, staticFiles p = some c → occurs key c = false)
    (hnow : occurs key now = false)
    (hlit : litSafe key) :
    Response.hasStr key (dispatch cfg staticFiles now upstream req).1 = false := by
  have hnf1 := hlit "error" (by decide)
  have hnf2 := hlit "Endpoint not found" (by decide)
  have hroot := hlit "index.html" (by decide)
  unfold dispatch
  split_ifs with hO hA hB hC hD hE hF hG hH hI
  · simp [Response.hasStr, headersHaveStr]
  · cases hc : staticFiles req.path with
    | none => rw [hc] at hA; simp at hA
    | some c =>
      simp [Response.hasStr, headersHaveStr, hc, hstat req.path c hc]
  · exact geminiHandler_safe key cfg upstream req.body hup hlit
  · exact voicevoxSpeakersHandler_safe key cfg upstream hup hlit
  · exact voicevoxAudioHandler_safe key cfg upstream req.query hup hlit
  · exact nijivoiceActorsHandler_safe key cfg upstream hup hlit
  · exact nijivoiceGenerateHandler_safe key cfg upstream _ req.body hup hlit
  · exact fetchAudioHandler_safe key upstream req.query hup hlit
  · exact healthResponse_safe key cfg now hnow hlit
  · simp [Response.hasStr, headersHaveStr, hroot]
  · simp [notFoundResp, Response.hasStr, headersHaveStr, Json.hasStr,
      Json.fieldsHasStr, hnf1, hnf2]

/-- C1 witness: the amended confinement theorem applied at a concrete
configuration, request and upstream outcome. -/
theorem c1_credential_confined_witness :
    Response.hasStr "SECRETKEY123"
      (dispatch ⟨some "SECRETKEY123", none, none⟩ (fun _ => none) "2025-01-01"
        (fun _ => .resp ⟨500, "Server Error", none, none,
          "upstream exploded", .error "bad json"⟩)
        ⟨"POST", "/api/proxy/gemini", [], [("model", .str "gemini-pro")]⟩).1 = false := by
  apply c1_credential_confined
  · intro o
    refine ⟨by decide, by decide, ?_, ?_, ?_, ?_⟩
    · intro v hv; cases hv
    · intro v hv; cases hv
    · intro j hj; cases hj
    · intro m hm; cases hm; decide
  · intro p c hc; cases hc
  · decide
  · exact (by decide : ∀ c ∈ gatewayLiterals, occurs "SECRETKEY123" c = false)

/-! ## Claim C2 -/

/-- C2: for each provider, whenever its credential is not configured
(unset, or set to the empty string — both falsy), every proxy route of
that provider returns HTTP 500 with a body whose error message contains
"not configured", and the list of outbound calls is empty.  The static
middleware must miss the three GET route paths (no file of that name is
served), which holds for any deployment that does not shadow the API
paths. -/
theorem c2_missing_credential_rejected (cfg : Config)
    (staticFiles : String → Option String) (now : String)
    (upstream : OutboundRequest → UpstreamResult)
    (q : List (String × String)) (b : List (String × Json))
    (hsp : staticFiles "/api/proxy/voicevox/speakers" = none)
    (hau : staticFiles "/api/proxy/voicevox/audio" = none)
    (hva : staticFiles "/api/proxy/nijivoice/voice-actors" = none) :
    (truthy cfg.gemini = false →
      dispatch cfg staticFiles now upstream ⟨"POST", "/api/proxy/gemini", q, b⟩ =
        (⟨500, [], .json (.obj [("error", .str "Gemini API key not configured")])⟩, [])) ∧
    (truthy cfg.voicevox = false →
      dispatch cfg staticFiles now upstream ⟨"GET", "/api/proxy/voicevox/speakers", q, b⟩ =
        (⟨500, [], .json (.obj [("error", .str "VOICEVOX API key not configured")])⟩, []) ∧
      dispatch cfg staticFiles now upstream ⟨"GET", "/api/proxy/voicevox/audio", q, b⟩ =
        (⟨500, [], .json (.obj [("error", .str "VOICEVOX API key not configured")])⟩, [])) ∧
    (truthy cfg.nijivoice = false →
      dispatch cfg staticFiles now upstream ⟨"GET", "/api/proxy/nijivoice/voice-actors", q, b⟩ =
        (⟨500, [], .json (.obj [("error", .str "Nijivoice API key not configured")])⟩, []) ∧
      ∀ p seg, genVoiceSeg p = some seg →
        dispatch cfg staticFiles now upstream ⟨"POST", p, q, b⟩ =
          (⟨500, [], .json (.obj [("error", .str "Nijivoice API key not configured")])⟩, [])) ∧
    occurs "not configured" "Gemini API key not configured" = true ∧
    occurs "not configured" "VOICEVOX API key not configured" = true ∧
    occurs "not configured" "Nijivoice API key not configured" = true := by
  refine ⟨?_, ?_, ?_, by decide, by decide, by decide⟩
  · intro hk
    simp [dispatch, geminiHandler, getOrHead, hk,
      (by decide : pathIs "/api/proxy/gemini" "/api/proxy/gemini" = true)]
  · intro hk
    constructor
    · simp [dispatch, voicevoxSpeakersHandler, getOrHead, hk, hsp,
        (by decide : pathIs "/api/proxy/voicevox/speakers" "/api/proxy/voicevox/speakers" = true)]
    · simp [dispatch, voicevoxAudioHandler, getOrHead, hk, hau,
        (by decide : pathIs "/api/proxy/voicevox/audio" "/api/proxy/voicevox/speakers" = false),
        (by decide : pathIs "/api/proxy/voicevox/audio" "/api/proxy/voicevox/audio" = true)]
  · intro hk
    constructor
    · simp [dispatch, nijivoiceActorsHandler, getOrHead, hk, hva,
        (by decide : pathIs "/api/proxy/nijivoice/voice-actors" "/api/proxy/voicevox/speakers" = false),
        (by decide : pathIs "/api/proxy/nijivoice/voice-actors" "/api/proxy/voicevox/audio" = false),
        (by decide : pathIs "/api/proxy/nijivoice/voice-actors" "/api/proxy/nijivoice/voice-actors" = true)]
    · intro p seg hseg
      have hne : pathIs p "/api/proxy/gemini" = false := by
        by_cases hb : pathIs p "/api/proxy/gemini" = true
        · exfalso
          have heq : (routeChars p).map lowerChar = "/api/proxy/gemini".toList := by
            simp only [pathIs] at hb
            exact eq_of_beq hb
          simp only [genVoiceSeg] at hseg
          rw [heq] at hseg
          rw [show ("/api/proxy/nijivoice/generate-voice/".toList).isPrefixOf
            "/api/proxy/gemini".toList = false from by decide] at hseg
          simp at hseg
        · simp only [Bool.not_eq_true] at hb
          exact hb
      simp [dispatch, nijivoiceGenerateHandler, getOrHead, hk, hne, hseg]

/-- C2 witness: the Gemini conjunct applied with no credentials
configured. -/
theorem c2_missing_credential_rejected_witness :
    dispatch ⟨none, none, none⟩ (fun _ => none) "T" (fun _ => .netErr "x")
        ⟨"POST", "/api/proxy/gemini", [], []⟩ =
      (⟨500, [], .json (.obj [("error", .str "Gemini API key not configured")])⟩, []) :=
  (c2_missing_credential_rejected ⟨none, none, none⟩ (fun _ => none) "T"
    (fun _ => .netErr "x") [] [] rfl rfl rfl).1 rfl

/-! ## Claim C5 -/

/-- C5: GET /api/health responds 200 with status "OK", the timestamp
(the `new Date().toISOString()` value, carried as the parameter `now`),
and one boolean per provider that equals exactly "a non-empty credential
string is configured" (`truthy`); the list of outbound calls is empty,
so no network call is performed.  The static middleware must miss the
path "/api/health". -/
theorem c5_health_contract (cfg : Config)
    (staticFiles : String → Option String) (now : String)
    (upstream : OutboundRequest → UpstreamResult)
    (q : List (String × String)) (b : List (String × Json))
    (hst : staticFiles "/api/health" = none) :
    dispatch cfg staticFiles now upstream ⟨"GET", "/api/health", q, b⟩ =
      (⟨200, [], .json (.obj
        [("status", .str "OK"),
         ("timestamp", .str now),
         ("services", .obj
           [("gemini", .bool (truthy cfg.gemini)),
            ("voicevox", .bool (truthy cfg.voicevox)),
            ("nijivoice", .bool (truthy cfg.nijivoice))])])⟩, []) := by
  simp [dispatch, healthResponse, healthBody, getOrHead, hst,
    (by decide : pathIs "/api/health" "/api/proxy/voicevox/speakers" = false),
    (by decide : pathIs "/api/health" "/api/proxy/voicevox/audio" = false),
    (by decide : pathIs "/api/health" "/api/proxy/nijivoice/voice-actors" = false),
    (by decide : pathIs "/api/health" "/fetch-audio" = false),
    (by decide : pathIs "/api/health" "/api/health" = true)]

/-- C5 witness: health with only the Gemini credential configured. -/
theorem c5_health_contract_witness :
    dispatch ⟨some "G", some "", none⟩ (fun _ => none) "2025-01-01T00:00:00.000Z"
        (fun _ => .netErr "x") ⟨"GET", "/api/health", [], []⟩ =
      (⟨200, [], .json (.obj
        [("status", .str "OK"),
         ("timestamp", .str "2025-01-01T00:00:00.000Z"),
         ("services", .obj
           [("gemini", .bool true),
            ("voicevox", .bool false),
            ("nijivoice", .bool false)])])⟩, []) :=
  c5_health_contract ⟨some "G", some "", none⟩ (fun _ => none)
    "2025-01-01T00:00:00.000Z" (fun _ => .netErr "x") [] [] rfl

/-! ## Claims C3 and C9: the Gemini upstream-error branches -/

/-- C3: on an upstream 400 whose body contains "not found for API
version", the Gemini route answers 400 with the fixed suggestion body,
whose `alternatives` array contains "gemini-pro"; on an upstream 400
without that text, the upstream status (400) is passed through with the
upstream body text in `details` and no `alternatives` field. -/
theorem c3_gemini_model_not_found (cfg : Config)
    (staticFiles : String → Option String) (now : String)
    (upstream : OutboundRequest → UpstreamResult)
    (q : List (String × String)) (b : List (String × Json))
    (r : UpstreamResponse)
    (hk : truthy cfg.gemini = true)
    (hr : upstream (geminiUpstreamReq (keyVal cfg.gemini) b) = .resp r)
    (hstatus : r.status = 400) :
    (occurs "not found for API version" r.bodyText = true →
      dispatch cfg staticFiles now upstream ⟨"POST", "/api/proxy/gemini", q, b⟩ =
        (⟨400, [], .json geminiAltBody⟩,
         [geminiUpstreamReq (keyVal cfg.gemini) b]) ∧
      Json.str "gemini-pro" ∈ geminiAlternatives) ∧
    (occurs "not found for API version" r.bodyText = false →
      dispatch cfg staticFiles now upstream ⟨"POST", "/api/proxy/gemini", q, b⟩ =
        (⟨400, [],
          .json (.obj [("error", .str "Gemini API request failed"),
                       ("details", .str r.bodyText)])⟩,
         [geminiUpstreamReq (keyVal cfg.gemini) b]) ∧
      List.lookup "alternatives"
        [("error", Json.str "Gemini API request failed"),
         ("details", Json.str r.bodyText)] = none) := by
  have hok : respOk r = false := by simp [respOk, hstatus]
  constructor
  · intro hnf
    constructor
    · simp [dispatch, geminiHandler, getOrHead,
      (by decide : pathIs "/api/proxy/gemini" "/api/proxy/gemini" = true), hk, hr, hok, hnf, hstatus]
    · simp [geminiAlternatives]
  · intro hnf
    constructor
    · simp [dispatch, geminiHandler, getOrHead,
      (by decide : pathIs "/api/proxy/gemini" "/api/proxy/gemini" = true), hk, hr, hok, hnf, hstatus]
    · simp

/-- C3 witness: both branches at concrete upstream 400 bodies. -/
theorem c3_gemini_model_not_found_witness :
    dispatch ⟨some "G", none, none⟩ (fun _ => none) "T"
        (fun _ => .resp ⟨400, "Bad Request", none, none,
          "models/foo is not found for API version v1", .error "parse"⟩)
        ⟨"POST", "/api/proxy/gemini", [], []⟩ =
      (⟨400, [], .json geminiAltBody⟩,
       [geminiUpstreamReq "G" []]) := by
  have h := c3_gemini_model_not_found ⟨some "G", none, none⟩ (fun _ => none) "T"
    (fun _ => .resp ⟨400, "Bad Request", none, none,
      "models/foo is not found for API version v1", .error "parse"⟩)
    [] [] ⟨400, "Bad Request", none, none,
      "models/foo is not found for API version v1", .error "parse"⟩
    rfl rfl rfl
  exact (h.1 (by decide)).1

/-- C9 (implicit): the model-not-found conversion is keyed only on
`response.ok`, not on status 400 — for every non-2xx upstream status
whose body contains "not found for API version", the gateway replaces
the upstream status with 400 and returns the fixed alternatives body. -/
theorem c9_model_not_found_on_any_error_status (cfg : Config)
    (staticFiles : String → Option String) (now : String)
    (upstream : OutboundRequest → UpstreamResult)
    (q : List (String × String)) (b : List (String × Json))
    (r : UpstreamResponse)
    (hk : truthy cfg.gemini = true)
    (hr : upstream (geminiUpstreamReq (keyVal cfg.gemini) b) = .resp r)
    (hstatus : respOk r = false)
    (hnf : occurs "not found for API version" r.bodyText = true) :
    dispatch cfg staticFiles now upstream ⟨"POST", "/api/proxy/gemini", q, b⟩ =
      (⟨400, [], .json geminiAltBody⟩,
       [geminiUpstreamReq (keyVal cfg.gemini) b]) := by
  simp [dispatch, geminiHandler, getOrHead,
      (by decide : pathIs "/api/proxy/gemini" "/api/proxy/gemini" = true), hk, hr, hstatus, hnf]

/-- C9 witness: an upstream 503 with the model-not-found text is turned
into the fixed 400 alternatives response. -/
theorem c9_model_not_found_on_any_error_status_witness :
    dispatch ⟨some "G", none, none⟩ (fun _ => none) "T"
        (fun _ => .resp ⟨503, "Service Unavailable", none, none,
          "models/foo is not found for API version v1", .error "parse"⟩)
        ⟨"POST", "/api/proxy/gemini", [], []⟩ =
      (⟨400, [], .json geminiAltBody⟩,
       [geminiUpstreamReq "G" []]) :=
  c9_model_not_found_on_any_error_status ⟨some "G", none, none⟩ (fun _ => none)
    "T" (fun _ => .resp ⟨503, "Service Unavailable", none, none,
      "models/foo is not found for API version v1", .error "parse"⟩)
    [] [] ⟨503, "Service Unavailable", none, none,
      "models/foo is not found for API version v1", .error "parse"⟩
    rfl rfl (by decide) (by decide)

/-! ## Claim C6 -/

/-- A POST route guard is false when the method/path pair does not
match the route. -/
theorem postGuard_false {m p : String} (pv : String)
    (h : ¬(m = "POST" ∧ pathIs p pv = true)) :
    (m == "POST" && pathIs p pv) = false := by
  by_cases hm : m = "POST"
  · by_cases hp : pathIs p pv = true
    · exact absurd ⟨hm, hp⟩ h
    · simp only [Bool.not_eq_true] at hp
      simp [hp]
  · simp [hm]

/-- A GET/HEAD route guard is false when the method/path pair does not
match the route. -/
theorem getGuard_false {m p : String} (pv : String)
    (h : ¬(getOrHead m = true ∧ pathIs p pv = true)) :
    (getOrHead m && pathIs p pv) = false := by
  by_cases hm : getOrHead m = true
  · by_cases hp : pathIs p pv = true
    · exact absurd ⟨hm, hp⟩ h
    · simp only [Bool.not_eq_true] at hp
      simp [hp]
  · simp only [Bool.not_eq_true] at hm
    simp [hm]

/-- C6, counterexample.  `GET /fetch-audio` is not one of the six
recognized routes of the claim, yet the Express server registers it:
with no `url` parameter it answers 400 with a different body, not 404
with the claimed "Endpoint not found" body. -/
theorem c6_fetch_audio_not_404_cex :
    dispatch ⟨none, none, none⟩ (fun _ => none) "T" (fun _ => .netErr "x")
        ⟨"GET", "/fetch-audio", [], []⟩ =
      (⟨400, [], .json (.obj [("error", .str "URL parameter is required")])⟩, []) ∧
    (400 : Nat) ≠ 404 := by
  constructor
  · set_option maxRecDepth 20000 in rfl
  · decide

/-- C6 (amended): a request whose method/path pair matches none of the
registered handlers receives exactly 404 with body
`error: "Endpoint not found"` and triggers no outbound call.  "Matches"
here is Express matching: the method is not OPTIONS (the cors
middleware answers every pre-flight with 204 before routing); route
paths compare case-insensitively with at most one trailing slash
ignored (`pathIs`); GET routes also serve HEAD (`getOrHead`); and the
route set includes the extra Express registrations `GET /fetch-audio`,
`GET /` (index page) and any path served by the static middleware. -/
theorem c6_unmatched_routes_404 (cfg : Config)
    (staticFiles : String → Option String) (now : String)
    (upstream : OutboundRequest → UpstreamResult) (req : Request)
    (hopt : ¬req.method = "OPTIONS")
    (hstatic : getOrHead req.method = true → staticFiles req.path = none)
    (hgem : ¬(req.method = "POST" ∧ pathIs req.path "/api/proxy/gemini" = true))
    (hspk : ¬(getOrHead req.method = true ∧
      pathIs req.path "/api/proxy/voicevox/speakers" = true))
    (haud : ¬(getOrHead req.method = true ∧
      pathIs req.path "/api/proxy/voicevox/audio" = true))
    (hact : ¬(getOrHead req.method = true ∧
      pathIs req.path "/api/proxy/nijivoice/voice-actors" = true))
    (hgen : req.method = "POST" → genVoiceSeg req.path = none)
    (hfa : ¬(getOrHead req.method = true ∧ pathIs req.path "/fetch-audio" = true))
    (hhe : ¬(getOrHead req.method = true ∧ pathIs req.path "/api/health" = true))
    (hroot : ¬(getOrHead req.method = true ∧ pathIs req.path "/" = true)) :
    dispatch cfg staticFiles now upstream req = (notFoundResp, []) := by
  have e0 : (req.method == "OPTIONS") = false := by
    simp [hopt]
  have e1 : (getOrHead req.method && (staticFiles req.path).isSome) = false := by
    by_cases h : getOrHead req.method = true
    · simp [h, hstatic h]
    · simp only [Bool.not_eq_true] at h
      simp [h]
  have e6 : (req.method == "POST" && (genVoiceSeg req.path).isSome) = false := by
    by_cases h : req.method = "POST"
    · simp [h, hgen h]
    · simp [h]
  simp [dispatch, e0, e1, e6,
    postGuard_false "/api/proxy/gemini" hgem,
    getGuard_false "/api/proxy/voicevox/speakers" hspk,
    getGuard_false "/api/proxy/voicevox/audio" haud,
    getGuard_false "/api/proxy/nijivoice/voice-actors" hact,
    getGuard_false "/fetch-audio" hfa,
    getGuard_false "/api/health" hhe,
    getGuard_false "/" hroot]

/-- C6 witness: `GET /api/proxy/unknown` receives the 404 body. -/
theorem c6_unmatched_routes_404_witness :
    dispatch ⟨none, none, none⟩ (fun _ => none) "T" (fun _ => .netErr "x")
        ⟨"GET", "/api/proxy/unknown", [], []⟩ = (notFoundResp, []) :=
  c6_unmatched_routes_404 ⟨none, none, none⟩ (fun _ => none) "T"
    (fun _ => .netErr "x") ⟨"GET", "/api/proxy/unknown", [], []⟩
    (by decide) (fun _ => rfl) (by decide) (by decide) (by decide) (by decide)
    (fun _ => rfl) (by decide) (by decide) (by decide)

/-! ## Claim C7 -/

/-- C7, counterexample.  The claim says a request missing the required
VOICEVOX `text` query parameter gets HTTP 400 before any outbound call.
In the code the Express audio handler performs no validation: with
`text` absent (and the credential set) the outbound call IS attempted,
carrying the literal string "undefined" as the text, and the response
is the upstream's (here 200), not 400. -/
theorem c7_voicevox_audio_no_validation_cex :
    dispatch ⟨none, some "VK", none⟩ (fun _ => none) "T"
        (fun _ => .resp ⟨200, "OK", some "audio/wav", some "4", "WAV!", .error "binary"⟩)
        ⟨"GET", "/api/proxy/voicevox/audio", [("speaker", "1")], []⟩ =
      (⟨200, [("Content-Type", "audio/wav"), ("Content-Length", "4")], .bytes "WAV!"⟩,
       [voicevoxAudioReq "VK" [("speaker", "1")]]) ∧
    List.lookup "text" (voicevoxAudioParams "VK" [("speaker", "1")]) =
      some "undefined" ∧
    (200 : Nat) ≠ 400 := by
  refine ⟨?_, rfl, by decide⟩
  set_option maxRecDepth 20000 in rfl

/-- C7 (amended): parameter validation is uneven across routes and
variants.  (1) The Express VOICEVOX audio route validates nothing: when
the credential is set, the outbound call is always attempted, and a
missing `text` parameter is forwarded as the literal string "undefined".
(2) A missing `voiceActorId` segment on the Express generate-voice route
falls through routing to the 404 handler (no outbound call) — not 400.
(3) Only the Pages Nijivoice function returns 400
(`Voice actor ID not found in path`) before any outbound call when the
generate-voice path carries no id. -/
theorem c7_parameter_validation_divergence (cfg : Config)
    (staticFiles : String → Option String) (now : String)
    (upstream : OutboundRequest → UpstreamResult)
    (q : List (String × String)) (b : List (String × Json))
    (hkv : truthy cfg.voicevox = true)
    (hkn : truthy cfg.nijivoice = true)
    (hau : staticFiles "/api/proxy/voicevox/audio" = none)
    (htext : q.lookup "text" = none) :
    (dispatch cfg staticFiles now upstream
        ⟨"GET", "/api/proxy/voicevox/audio", q, b⟩).2 =
      [voicevoxAudioReq (keyVal cfg.voicevox) q] ∧
    List.lookup "text" (voicevoxAudioParams (keyVal cfg.voicevox) q) =
      some "undefined" ∧
    dispatch cfg staticFiles now upstream
        ⟨"POST", "/api/proxy/nijivoice/generate-voice/", q, b⟩ =
      (notFoundResp, []) ∧
    (∀ pathname, occurs "generate-voice" (nijiApiPath pathname) = true →
      genVoiceId (nijiApiPath pathname) = none →
      pagesNijivoice cfg pathname b upstream =
        (⟨400, pagesJsonHeaders pagesNijivoiceCors,
          .json (.obj [("error", .str "Voice actor ID not found in path")])⟩, [])) := by
  refine ⟨?_, ?_, ?_, ?_⟩
  · simp only [dispatch, voicevoxAudioHandler]
    simp [hkv, hau, getOrHead,
      (by decide : pathIs "/api/proxy/voicevox/audio" "/api/proxy/voicevox/speakers" = false),
      (by decide : pathIs "/api/proxy/voicevox/audio" "/api/proxy/voicevox/audio" = true)]
    cases h : upstream (voicevoxAudioReq (keyVal cfg.voicevox) q) with
    | netErr m => simp [h]
    | resp r =>
      by_cases hok : respOk r = true
      · simp [h, hok]
      · simp only [Bool.not_eq_true] at hok
        simp [h, hok]
  · simp [voicevoxAudioParams, jsParam, htext]
  · have hg : genVoiceSeg "/api/proxy/nijivoice/generate-voice/" = none := rfl
    simp [dispatch, hg, getOrHead,
      (by decide : pathIs "/api/proxy/nijivoice/generate-voice/" "/api/proxy/gemini" = false)]
  · intro pathname hocc hid
    have hne : ¬(nijiApiPath pathname == "voice-actors") = true := by
      intro h
      rw [beq_iff_eq] at h
      rw [h] at hocc
      exact absurd hocc (by decide)
    simp [pagesNijivoice, hkn, hne, hocc, hid]

/-- C7 witness: the Express missing-id 404 component, with both
credentials configured and `text` absent from the query. -/
theorem c7_parameter_validation_divergence_witness :
    dispatch ⟨none, some "VK", some "NK"⟩ (fun _ => none) "T"
        (fun _ => .netErr "x")
        ⟨"POST", "/api/proxy/nijivoice/generate-voice/", [("speaker", "1")], []⟩ =
      (notFoundResp, []) :=
  (c7_parameter_validation_divergence ⟨none, some "VK", some "NK"⟩
    (fun _ => none) "T" (fun _ => .netErr "x") [("speaker", "1")] []
    rfl rfl rfl rfl).2.2.1

/-! ## Claim C8 -/

/-- C8, counterexample.  The claim says the removed `model` value is
substituted into the upstream URL (with the default only when `model` is
absent).  With `model` present but equal to the empty string, the
Express handler's `model || 'gemini-2.0-flash'` discards the removed
value and substitutes the default instead: the URL built is the
default-model URL, not the URL the claim prescribes. -/
theorem c8_empty_model_uses_default_cex :
    (dispatch ⟨some "K", none, none⟩ (fun _ => none) "T"
        (fun _ => .netErr "x")
        ⟨"POST", "/api/proxy/gemini", [],
         [("model", .str ""), ("contents", .str "hi")]⟩).2 =
      [⟨"POST",
        "https://generativelanguage.googleapis.com/v1/models/gemini-2.0-flash:generateContent?key=K",
        [], [("Content-Type", "application/json")],
        some (.obj [("contents", .str "hi")])⟩] ∧
    List.lookup "model" [(("model" : String), Json.str ""), ("contents", Json.str "hi")] =
      some (Json.str "") ∧
    ("https://generativelanguage.googleapis.com/v1/models/gemini-2.0-flash:generateContent?key=K" : String) ≠
      "https://generativelanguage.googleapis.com/v1/models/:generateContent?key=K" := by
  refine ⟨?_, rfl, by decide⟩
  set_option maxRecDepth 20000 in rfl

/-- C8 (amended): when the Gemini credential is set, exactly one
outbound call is made; its body is the inbound JSON object with exactly
the `model` fields removed and nothing else changed; its URL substitutes
the `model` value when that value is truthy, and the default identifier
"gemini-2.0-flash" when `model` is absent OR falsy (empty string, null,
0, false); the credential is appended to the URL as the `key` query
parameter. -/
theorem c8_gemini_forwarding (cfg : Config)
    (staticFiles : String → Option String) (now : String)
    (upstream : OutboundRequest → UpstreamResult)
    (q : List (String × String)) (b : List (String × Json))
    (hk : truthy cfg.gemini = true) :
    (dispatch cfg staticFiles now upstream ⟨"POST", "/api/proxy/gemini", q, b⟩).2 =
      [geminiUpstreamReq (keyVal cfg.gemini) b] ∧
    (geminiUpstreamReq (keyVal cfg.gemini) b).body =
      some (.obj (b.filter (fun p => !(p.1 == "model")))) ∧
    (geminiUpstreamReq (keyVal cfg.gemini) b).url =
      "https://generativelanguage.googleapis.com/v1/models/"
        ++ expressGeminiModel b ++ ":generateContent?key=" ++ keyVal cfg.gemini ∧
    (∀ v, b.lookup "model" = some v → jsTruthy v = true →
      expressGeminiModel b = jsToString v) ∧
    (b.lookup "model" = none → expressGeminiModel b = "gemini-2.0-flash") ∧
    (∀ v, b.lookup "model" = some v → jsTruthy v = false →
      expressGeminiModel b = "gemini-2.0-flash") := by
  refine ⟨?_, rfl, rfl, ?_, ?_, ?_⟩
  · simp only [dispatch, geminiHandler]
    simp [hk, getOrHead,
      (by decide : pathIs "/api/proxy/gemini" "/api/proxy/gemini" = true)]
    cases h : upstream (geminiUpstreamReq (keyVal cfg.gemini) b) with
    | netErr m => simp [h]
    | resp r =>
      by_cases hok : respOk r = true
      · cases hj : r.bodyJson with
        | ok data => simp [h, hok, hj]
        | error m => simp [h, hok, hj]
      · simp only [Bool.not_eq_true] at hok
        by_cases hnf : occurs "not found for API version" r.bodyText = true
        · simp [h, hok, hnf]
        · simp only [Bool.not_eq_true] at hnf
          simp [h, hok, hnf]
  · intro v hv ht
    simp [expressGeminiModel, hv, ht]
  · intro h
    simp [expressGeminiModel, h]
  · intro v hv ht
    simp [expressGeminiModel, hv, ht]

/-- C8 witness: forwarding at a concrete body carrying a truthy model
field and one payload field. -/
theorem c8_gemini_forwarding_witness :
    (dispatch ⟨some "K", none, none⟩ (fun _ => none) "T"
        (fun _ => .netErr "x")
        ⟨"POST", "/api/proxy/gemini", [],
         [("model", .str "gemini-pro"), ("contents", .str "hi")]⟩).2 =
      [geminiUpstreamReq "K" [("model", .str "gemini-pro"), ("contents", .str "hi")]] :=
  (c8_gemini_forwarding ⟨some "K", none, none⟩ (fun _ => none) "T"
    (fun _ => .netErr "x") []
    [("model", .str "gemini-pro"), ("contents", .str "hi")] rfl).1

/-! ## Claim C10 -/

/-- C10, counterexample.  The claim says `GET /fetch-audio` fetches the
caller-supplied URL whenever the `url` parameter is present.  With the
parameter present but empty, the falsy check `!audioUrl` fires: the
gateway answers 400 and performs no outbound call. -/
theorem c10_empty_url_param_cex :
    dispatch ⟨none, none, none⟩ (fun _ => none) "T" (fun _ => .netErr "x")
        ⟨"GET", "/fetch-audio", [("url", "")], []⟩ =
      (⟨400, [], .json (.obj [("error", .str "URL parameter is required")])⟩, []) ∧
    List.lookup "url" [(("url" : String), ("" : String))] = some "" := by
  exact ⟨rfl, rfl⟩

/-- C10 (amended): on `GET /fetch-audio`, an absent OR empty `url`
parameter yields 400 with `error: "URL parameter is required"` and no
outbound call; a present non-empty `url` is fetched exactly as given —
the outbound request carries no credential, no query, no headers — and
on upstream success the bytes are streamed back with the upstream
content type (default audio/mpeg) and the header
`Access-Control-Allow-Origin: *`. -/
theorem c10_fetch_audio_contract (cfg : Config)
    (staticFiles : String → Option String) (now : String)
    (upstream : OutboundRequest → UpstreamResult)
    (q : List (String × String)) (b : List (String × Json))
    (hst : staticFiles "/fetch-audio" = none) :
    (q.lookup "url" = none →
      dispatch cfg staticFiles now upstream ⟨"GET", "/fetch-audio", q, b⟩ =
        (⟨400, [], .json (.obj [("error", .str "URL parameter is required")])⟩, [])) ∧
    (q.lookup "url" = some "" →
      dispatch cfg staticFiles now upstream ⟨"GET", "/fetch-audio", q, b⟩ =
        (⟨400, [], .json (.obj [("error", .str "URL parameter is required")])⟩, [])) ∧
    (∀ u r, q.lookup "url" = some u → ¬(u = "") →
      upstream (fetchAudioReq u) = .resp r → respOk r = true →
      dispatch cfg staticFiles now upstream ⟨"GET", "/fetch-audio", q, b⟩ =
        (⟨200, [("Content-Type", r.contentType.getD "audio/mpeg"),
                ("Access-Control-Allow-Origin", "*"),
                ("Cache-Control", "public, max-age=3600")],
          .bytes r.bodyText⟩, [fetchAudioReq u])) ∧
    (∀ u, fetchAudioReq u = ⟨"GET", u, [], [], none⟩) := by
  refine ⟨?_, ?_, ?_, fun u => rfl⟩
  · intro h
    simp [dispatch, fetchAudioHandler, getOrHead,
      (by decide : pathIs "/fetch-audio" "/api/proxy/voicevox/speakers" = false),
      (by decide : pathIs "/fetch-audio" "/api/proxy/voicevox/audio" = false),
      (by decide : pathIs "/fetch-audio" "/api/proxy/nijivoice/voice-actors" = false),
      (by decide : pathIs "/fetch-audio" "/fetch-audio" = true), hst, h]
  · intro h
    simp [dispatch, fetchAudioHandler, getOrHead,
      (by decide : pathIs "/fetch-audio" "/api/proxy/voicevox/speakers" = false),
      (by decide : pathIs "/fetch-audio" "/api/proxy/voicevox/audio" = false),
      (by decide : pathIs "/fetch-audio" "/api/proxy/nijivoice/voice-actors" = false),
      (by decide : pathIs "/fetch-audio" "/fetch-audio" = true), hst, h]
  · intro u r hu hne hr hok
    have hbeq : (u == "") = false := by simp [hne]
    simp [dispatch, fetchAudioHandler, getOrHead,
      (by decide : pathIs "/fetch-audio" "/api/proxy/voicevox/speakers" = false),
      (by decide : pathIs "/fetch-audio" "/api/proxy/voicevox/audio" = false),
      (by decide : pathIs "/fetch-audio" "/api/proxy/nijivoice/voice-actors" = false),
      (by decide : pathIs "/fetch-audio" "/fetch-audio" = true), hst, hu, hbeq, hr, hok]

/-- C10 witness: a present non-empty URL is fetched and streamed. -/
theorem c10_fetch_audio_contract_witness :
    dispatch ⟨none, none, none⟩ (fun _ => none) "T"
        (fun _ => .resp ⟨200, "OK", some "audio/mpeg", none, "MP3!", .error "binary"⟩)
        ⟨"GET", "/fetch-audio", [("url", "https://cdn.example/a.mp3")], []⟩ =
      (⟨200, [("Content-Type", "audio/mpeg"),
              ("Access-Control-Allow-Origin", "*"),
              ("Cache-Control", "public, max-age=3600")],
        .bytes "MP3!"⟩, [fetchAudioReq "https://cdn.example/a.mp3"]) :=
  (c10_fetch_audio_contract ⟨none, none, none⟩ (fun _ => none) "T"
    (fun _ => .resp ⟨200, "OK", some "audio/mpeg", none, "MP3!", .error "binary"⟩)
    [("url", "https://cdn.example/a.mp3")] [] rfl).2.2.1
    "https://cdn.example/a.mp3"
    ⟨200, "OK", some "audio/mpeg", none, "MP3!", .error "binary"⟩
    rfl (by decide) rfl (by decide)

/-! ## Claim C4 -/

/-- C4, counterexample.  The claim says the two deployment shapes build
the same forwarded upstream request for every request to the shared
routes.  On `GET .../voicevox/audio` with only `text` and `speaker`
given, the Express variant injects defaults for `speed`, `pitch` and
`intonationScale` while the Pages variant copies the inbound query
verbatim: the upstream query strings differ. -/
theorem c4_variants_differ_cex :
    (dispatch ⟨none, some "VK", none⟩ (fun _ => none) "T"
        (fun _ => .resp ⟨200, "OK", some "audio/wav", some "4", "WAV!", .error "binary"⟩)
        ⟨"GET", "/api/proxy/voicevox/audio", [("text", "hello"), ("speaker", "1")], []⟩).2 =
      [voicevoxAudioReq "VK" [("text", "hello"), ("speaker", "1")]] ∧
    (pagesVoicevox ⟨none, some "VK", none⟩ "/api/proxy/voicevox/audio"
        [("text", "hello"), ("speaker", "1")]
        (fun _ => .resp ⟨200, "OK", some "audio/wav", some "4", "WAV!", .error "binary"⟩)).2 =
      [pagesVoicevoxAudioReq "VK" [("text", "hello"), ("speaker", "1")]] ∧
    (voicevoxAudioReq "VK" [("text", "hello"), ("speaker", "1")]).query ≠
      (pagesVoicevoxAudioReq "VK" [("text", "hello"), ("speaker", "1")]).query := by
  refine ⟨?_, ?_, by decide⟩
  · set_option maxRecDepth 20000 in rfl
  · set_option maxRecDepth 20000 in rfl

/-- C4 (amended): the two deployment shapes are not identical in
general (their CORS headers differ, the VOICEVOX audio upstream queries
differ when optional parameters are absent, and their catch handlers
produce different bodies), but on the Gemini route they agree on
status, body and forwarded request whenever the `model` field is absent
or truthy (the variants default differently on falsy values) and the
upstream yields a response whose body parses as JSON when 2xx. -/
theorem c4_gemini_variants_agree (cfg : Config) (b : List (String × Json))
    (upstream : OutboundRequest → UpstreamResult) (r : UpstreamResponse)
    (hmod : b.lookup "model" = none ∨
      ∃ v, b.lookup "model" = some v ∧ jsTruthy v = true)
    (hr : upstream (geminiUpstreamReq (keyVal cfg.gemini) b) = .resp r)
    (hjson : respOk r = true → ∃ j, r.bodyJson = Except.ok j) :
    (geminiHandler cfg upstream b).1.status = (pagesGemini cfg b upstream).1.status ∧
    (geminiHandler cfg upstream b).1.body = (pagesGemini cfg b upstream).1.body ∧
    (geminiHandler cfg upstream b).2 = (pagesGemini cfg b upstream).2 := by
  have hm : expressGeminiModel b = pagesGeminiModel b := by
    rcases hmod with h | ⟨v, hv, ht⟩
    · simp [expressGeminiModel, pagesGeminiModel, h]
    · simp [expressGeminiModel, pagesGeminiModel, hv, ht]
  have hreq : pagesGeminiUpstreamReq (keyVal cfg.gemini) b =
      geminiUpstreamReq (keyVal cfg.gemini) b := by
    simp [geminiUpstreamReq, pagesGeminiUpstreamReq, hm]
  by_cases hk : truthy cfg.gemini = true
  · by_cases hok : respOk r = true
    · obtain ⟨j, hj⟩ := hjson hok
      simp [geminiHandler, pagesGemini, hk, hreq, hr, hok, hj]
    · simp only [Bool.not_eq_true] at hok
      by_cases hnf : occurs "not found for API version" r.bodyText = true
      · simp [geminiHandler, pagesGemini, hk, hreq, hr, hok, hnf]
      · simp only [Bool.not_eq_true] at hnf
        simp [geminiHandler, pagesGemini, hk, hreq, hr, hok, hnf]
  · simp only [Bool.not_eq_true] at hk
    simp [geminiHandler, pagesGemini, hk]

/-- C4 witness: agreement of the two Gemini variants at a concrete
request and upstream success. -/
theorem c4_gemini_variants_agree_witness :
    (geminiHandler ⟨some "K", none, none⟩
        (fun _ => .resp ⟨200, "OK", none, none, "ok", .ok .null⟩)
        [("contents", .str "hi")]).1.status =
      (pagesGemini ⟨some "K", none, none⟩ [("contents", .str "hi")]
        (fun _ => .resp ⟨200, "OK", none, none, "ok", .ok .null⟩)).1.status :=
  (c4_gemini_variants_agree ⟨some "K", none, none⟩ [("contents", .str "hi")]
    (fun _ => .resp ⟨200, "OK", none, none, "ok", .ok .null⟩)
    ⟨200, "OK", none, none, "ok", .ok .null⟩
    (Or.inl rfl) rfl (fun _ => ⟨.null, rfl⟩)).1

end Gateway
